import Mathlib

/-!
Shallow embedding of `src/HealthBot/app.py` (a Streamlit health-information
assistant) and proofs about its query-routing, drug-lookup, prompt-composition
and emergency-link logic.

The outbound HTTP layer is modelled by an oracle `http : String → Option FdaData`
mapping the request URL to the parsed JSON payload; `none` stands for a raised
exception in `requests.get` or `response.json()` (transport failure or an
unparseable body).  Everything else is translated function-for-function from
the source.
-/

namespace HealthBot

/-- Model of the JSON body returned by the OpenFDA label endpoint, restricted
to the shape `get_fda_drug_info` inspects.  Each label field of the first
result is `none` when the key is absent from the JSON object, and
`some l` when present with array value `l`. -/
structure FdaResult where
  purpose : Option (List String)
  indications_and_usage : Option (List String)
  warnings : Option (List String)
deriving DecidableEq

/-- Top level of the parsed JSON payload: `hasError` models the presence of a
top-level `error` key (the code only tests membership), `results` models the
value of the `results` key (`none` when the key is absent). -/
structure FdaData where
  hasError : Bool
  results : Option (List FdaResult)
deriving DecidableEq

/-- Record built by `get_fda_drug_info` on success (the Python dict with keys
source, purpose, indications, warnings). -/
structure DrugRecord where
  source : String
  purpose : String
  indications : String
  warnings : String
deriving DecidableEq

/-- Python string slice `s[:n]`: the first `n` characters of `s`. -/
def pyTruncate (s : String) (n : Nat) : String := ⟨s.data.take n⟩

/-- Base URL constant of `get_fda_drug_info`. -/
def fda_base_url : String := "https://api.fda.gov/drug/label.json"

/-- Query string built by `get_fda_drug_info`:
`f\x27?search=openfda.brand_name:"\x7bdrug_name\x7d"&limit=1\x27`. -/
def fda_query (drug_name : String) : String :=
  "?search=openfda.brand_name:\"" ++ drug_name ++ "\"&limit=1"

/-- The full request URL `base_url + query`. -/
def fda_request_url (drug_name : String) : String :=
  fda_base_url ++ fda_query drug_name

/-- Python `result.get(key, [\x27Not Listed\x27])[0]`: the default list is used
when the key is absent; indexing `[0]` raises (here: `none`) when the value is
present but an empty array. -/
def getFirst (field : Option (List String)) : Option String :=
  (field.getD ["Not Listed"]).head?

/-- Body of the `try` block of `get_fda_drug_info` after `response.json()`
succeeded: the explicit `if "error" in data: return None`, then
`data[\x27results\x27][0]` (a `KeyError` or `IndexError` is caught by the bare
`except` and yields `None`), then the record construction, where an
`IndexError` from a present-but-empty field array is likewise caught. -/
def parse_fda_payload (data : FdaData) : Option DrugRecord :=
  if data.hasError then none
  else
    match data.results with
    | none => none
    | some [] => none
    | some (result :: _) =>
      match getFirst result.purpose, getFirst result.indications_and_usage,
            getFirst result.warnings with
      | some p, some ind, some w =>
        some { source := "Official US FDA Database"
               purpose := p
               indications := ind
               warnings := pyTruncate w 1000 }
      | _, _, _ => none

/-- Embedding of `get_fda_drug_info(drug_name)` (app.py lines 20-40).  The
`http` oracle stands for `requests.get(...).json()`; `none` is a raised
transport/parse exception, swallowed by the bare `except: return None`. -/
def get_fda_drug_info (drug_name : String) (http : String → Option FdaData) :
    Option DrugRecord :=
  match http (fda_request_url drug_name) with
  | none => none
  | some data => parse_fda_payload data

/-- Fixed model identifier passed to `ChatGroq` (app.py line 48). -/
def groq_model : String := "llama-3.3-70b-versatile"

/-- System template of the `drug_with_context` branch (app.py line 53). -/
def pharmacist_context_template : String :=
  "You are a helpful pharmacist. Explain this technical medical data in simple English for a patient."

/-- System template of the `drug_no_context` branch (app.py lines 58-63), the
Python triple-quoted string with its leading newline and 8-space indents. -/
def pharmacist_memory_template : String :=
  "\n        You are an expert pharmacist familiar with international medicines, including Indian brands (like Dolo, Saridon, Pan D).\n        1. Identify the active ingredients in the drug name provided.\n        2. Explain its uses and side effects.\n        3. Provide a warning: \"Information based on general knowledge, check the strip pack.\"\n        "

/-- System template of the default (symptom checker) branch (app.py lines
68-75), the Python triple-quoted string with its leading newline and 8-space
indents. -/
def triage_template : String :=
  "\n        You are a senior medical triage nurse.\n        1. Ask follow-up questions if the user\x27s description is too vague.\n        2. Identify if this is an emergency (Heart attack, Stroke, Anaphylaxis).\n        3. Suggest specialist doctors (e.g., \x27See a Gastroenterologist\x27).\n        4. Suggest supportive home care (hydration, rest).\n        5. DISCLAIMER: Always state you are an AI, not a doctor.\n        "

/-- Python single-quoted repr of a string, for field text holding no quote or
escape characters (the quoting-style switch CPython performs on such text is
irrelevant to every property proved here). -/
def pyQuote (s : String) : String := "\x27" ++ s ++ "\x27"

/-- Python `str()` of the record dict built by `get_fda_drug_info`, keys in
insertion order. -/
def pyStrRecord (r : DrugRecord) : String :=
  "\x7b" ++ pyQuote "source" ++ ": " ++ pyQuote r.source ++ ", "
        ++ pyQuote "purpose" ++ ": " ++ pyQuote r.purpose ++ ", "
        ++ pyQuote "indications" ++ ": " ++ pyQuote r.indications ++ ", "
        ++ pyQuote "warnings" ++ ": " ++ pyQuote r.warnings ++ "\x7d"

/-- Python `str(context_data)` where `context_data` defaults to `None`. -/
def pyStrOpt : Option DrugRecord → String
  | none => "None"
  | some r => pyStrRecord r

/-- The two-message exchange `chain.invoke` sends: fixed model identifier,
temperature 0, system role text and user role text (app.py lines 48, 79-89). -/
structure CompletionCall where
  model_name : String
  temperature : Nat
  systemInstruction : String
  userContent : String
deriving DecidableEq

/-- Mode dispatch of `get_ai_response` (app.py lines 50-76): selects the
system template and builds the user content by string equality on `mode`,
every other string falling to the symptom-checker default branch. -/
def compose (mode user_query : String) (context_data : Option DrugRecord) :
    CompletionCall :=
  if mode = "drug_with_context" then
    { model_name := groq_model
      temperature := 0
      systemInstruction := pharmacist_context_template
      userContent := "Official Data: " ++ pyStrOpt context_data
        ++ "\n\nUser Question: " ++ user_query }
  else if mode = "drug_no_context" then
    { model_name := groq_model
      temperature := 0
      systemInstruction := pharmacist_memory_template
      userContent := "Explain the medicine: " ++ user_query }
  else
    { model_name := groq_model
      temperature := 0
      systemInstruction := triage_template
      userContent := user_query }

/-- Outcome of `get_ai_response`: either the early return of the missing-key
message (no `ChatGroq` client is constructed, no network call is made), or
the single completion call carrying the composed request. -/
inductive AiResponse where
  | authError (message : String)
  | call (request : CompletionCall)
deriving DecidableEq

/-- Number of completion-client invocations an outcome performs. -/
def completionCalls : AiResponse → Nat
  | AiResponse.authError _ => 0
  | AiResponse.call _ => 1

/-- Embedding of `get_ai_response(user_query, context_data=None, mode="symptom")`
(app.py lines 43-91).  `if not api_key` on a string is true exactly when the
string is empty; the early return precedes the `ChatGroq` construction and
the `chain.invoke` network call, both of which are represented by the
`AiResponse.call` constructor. -/
def get_ai_response (api_key user_query : String)
    (context_data : Option DrugRecord) (mode : String) : AiResponse :=
  if api_key = "" then
    AiResponse.authError "Please enter your API Key in the sidebar first!"
  else
    AiResponse.call (compose mode user_query context_data)

/-- Resolution of the credential (app.py lines 11-15): the secrets store wins
when present, else the sidebar text input (whose default is the empty
string, so an absent credential is the empty string). -/
def resolve_api_key (secrets : Option String) (sidebar_input : String) : String :=
  match secrets with
  | some k => k
  | none => sidebar_input

/-- Arguments the tab-2 medicine flow passes to `get_ai_response`. -/
structure RouterDecision where
  mode : String
  user_query : String
  context_data : Option DrugRecord
deriving DecidableEq

/-- Routing step of tab 2 (app.py lines 129-140): try the FDA lookup first;
a found record (a 4-key dict, hence truthy) routes to `drug_with_context`
with query `f"Explain \x7bdrug_name\x7d"` and the record attached; `None`
routes to `drug_no_context` with the bare drug name and no record. -/
def tab2_route (drug_name : String) (http : String → Option FdaData) :
    RouterDecision :=
  match get_fda_drug_info drug_name http with
  | some real_data =>
    { mode := "drug_with_context"
      user_query := "Explain " ++ drug_name
      context_data := some real_data }
  | none =>
    { mode := "drug_no_context"
      user_query := drug_name
      context_data := none }

/-- The complete tab-2 medicine flow: route, then the single
`get_ai_response` call of that request. -/
def tab2_flow (api_key drug_name : String) (http : String → Option FdaData) :
    AiResponse :=
  let d := tab2_route drug_name http
  get_ai_response api_key d.user_query d.context_data d.mode

/-- Hospital-search URL template of tab 3 (app.py line 162). -/
def hospital_link_template : String :=
  "https://www.google.com/maps/search/hospitals+near+"

/-- Ambulance-search URL template of tab 3 (app.py line 163). -/
def ambulance_link_template : String :=
  "https://www.google.com/maps/search/ambulance+service+near+"

/-- Embedding of the tab-3 emergency-link action (app.py lines 160-167): the
two Google-Maps search URLs built from the city name.  Unlike the lookup,
this function takes no `http` oracle: it performs no network call. -/
def tab3_emergency_links (user_city : String) : String × String :=
  (hospital_link_template ++ user_city, ambulance_link_template ++ user_city)

/-! Sample oracles used by the witness theorems. -/

/-- Sample well-formed payload: one result with all three fields present. -/
def sampleResultFull : FdaResult :=
  { purpose := some ["pain reliever"]
    indications_and_usage := some ["temporarily relieves minor aches"]
    warnings := some ["do not exceed the recommended dose"] }

/-- Payload wrapping `sampleResultFull`. -/
def sampleDataFull : FdaData :=
  { hasError := false, results := some [sampleResultFull] }

/-- Oracle for a reachable service that finds the drug. -/
def httpFound : String → Option FdaData := fun _ => some sampleDataFull

/-- Oracle for a transport failure or unparseable body. -/
def httpDown : String → Option FdaData := fun _ => none

/-- Sample result whose `purpose` key is absent. -/
def sampleResultNoPurpose : FdaResult :=
  { purpose := none
    indications_and_usage := some ["temporarily relieves minor aches"]
    warnings := some ["do not exceed the recommended dose"] }

/-- Payload wrapping `sampleResultNoPurpose`. -/
def sampleDataNoPurpose : FdaData :=
  { hasError := false, results := some [sampleResultNoPurpose] }

/-- Oracle returning `sampleDataNoPurpose`. -/
def httpNoPurpose : String → Option FdaData := fun _ => some sampleDataNoPurpose

/-- Sample result whose `purpose` key is present but an empty array. -/
def sampleResultEmptyPurpose : FdaResult :=
  { purpose := some []
    indications_and_usage := some ["temporarily relieves minor aches"]
    warnings := some ["do not exceed the recommended dose"] }

/-- Payload wrapping `sampleResultEmptyPurpose`. -/
def sampleDataEmptyPurpose : FdaData :=
  { hasError := false, results := some [sampleResultEmptyPurpose] }

/-- Oracle returning `sampleDataEmptyPurpose`. -/
def httpEmptyPurpose : String → Option FdaData :=
  fun _ => some sampleDataEmptyPurpose

/-- Record `get_fda_drug_info` builds from `sampleDataFull`. -/
def sampleRecordFull : DrugRecord :=
  { source := "Official US FDA Database"
    purpose := "pain reliever"
    indications := "temporarily relieves minor aches"
    warnings := pyTruncate "do not exceed the recommended dose" 1000 }

/-- Record `get_fda_drug_info` builds from `sampleDataNoPurpose`. -/
def sampleRecordNoPurpose : DrugRecord :=
  { source := "Official US FDA Database"
    purpose := "Not Listed"
    indications := "temporarily relieves minor aches"
    warnings := pyTruncate "do not exceed the recommended dose" 1000 }

/-! Theorems. -/

/-- C1.  Router tie-break: the tab-2 flow makes its single completion call
with mode `drug_with_context` and the looked-up record attached exactly when
the lookup found one, and with mode `drug_no_context` and no record exactly
when the lookup returned `None`; the two sources are never blended. -/
theorem router_tie_break (drug_name : String) (http : String → Option FdaData) :
    ((tab2_route drug_name http).mode, (tab2_route drug_name http).context_data)
      = match get_fda_drug_info drug_name http with
        | some rec => ("drug_with_context", some rec)
        | none => ("drug_no_context", none) := by
  unfold tab2_route
  cases get_fda_drug_info drug_name http <;> rfl

/-- C2.  On a transport failure or unparseable body (`http` raises), an
explicit `error` key in the payload, an absent `results` key, or an empty
result list, the lookup returns `None`; being a total Lean function it can
raise nothing. -/
theorem lookup_failure_not_found (drug_name : String)
    (http : String → Option FdaData)
    (h : http (fda_request_url drug_name) = none ∨
         ∃ d, http (fda_request_url drug_name) = some d ∧
           (d.hasError = true ∨ d.results = none ∨ d.results = some [])) :
    get_fda_drug_info drug_name http = none := by
  unfold get_fda_drug_info
  rcases h with h | ⟨d, hd, herr | hres | hres⟩
  · rw [h]
  · rw [hd]
    simp [parse_fda_payload, herr]
  · rw [hd]
    simp [parse_fda_payload, hres]
  · rw [hd]
    simp [parse_fda_payload, hres]

/-- Witness for C2 at the concrete drug name "Dolo 650" and a transport
failure. -/
theorem lookup_failure_not_found_witness :
    get_fda_drug_info "Dolo 650" httpDown = none :=
  lookup_failure_not_found "Dolo 650" httpDown (Or.inl rfl)

/-- C8.  The tab-3 emergency-link action is pure string formatting: it yields
exactly the pair of URLs obtained by appending the city name to the two fixed
templates (and, taking no `http` oracle, performs no network call). -/
theorem emergency_links_pure (user_city : String) :
    tab3_emergency_links user_city
      = (hospital_link_template ++ user_city,
         ambulance_link_template ++ user_city) := rfl

/-- C3.  With an empty (or absent, hence empty) credential, `get_ai_response`
returns the user-visible instructional message for every query, record and
mode; the outcome carries no completion call, so no client is constructed and
no network call is attempted and no partial output exists. -/
theorem missing_credential_auth_error (api_key user_query mode : String)
    (context_data : Option DrugRecord) (h : api_key = "") :
    get_ai_response api_key user_query context_data mode
      = AiResponse.authError "Please enter your API Key in the sidebar first!" ∧
    completionCalls (get_ai_response api_key user_query context_data mode) = 0 := by
  subst h
  exact ⟨rfl, rfl⟩

/-- Witness for C3 at a concrete query and mode with the empty credential. -/
theorem missing_credential_auth_error_witness :
    get_ai_response "" "fever and chills" none "symptom"
      = AiResponse.authError "Please enter your API Key in the sidebar first!" ∧
    completionCalls (get_ai_response "" "fever and chills" none "symptom") = 0 :=
  missing_credential_auth_error "" "fever and chills" "symptom" none rfl

/-- C5.  Composing with mode `symptom` yields the fixed triage-nurse system
instruction whatever the query, and in general the system instruction is a
pure function of the mode alone: two invocations with the same mode agree on
it whatever their queries and records. -/
theorem system_instruction_from_mode (mode q1 q2 : String)
    (r1 r2 : Option DrugRecord) :
    (compose "symptom" q1 r1).systemInstruction = triage_template ∧
    (compose mode q1 r1).systemInstruction
      = (compose mode q2 r2).systemInstruction := by
  refine ⟨rfl, ?_⟩
  unfold compose
  by_cases h1 : mode = "drug_with_context" <;>
    by_cases h2 : mode = "drug_no_context" <;>
    simp [h1, h2]

/-- String `sub` occurs contiguously inside `s`. -/
def containsStr (s sub : String) : Prop := ∃ pre post, s = pre ++ (sub ++ post)

/-- C6.  Composing with mode `drug_with_context` yields a user content equal
to the serialization of the record concatenated (via the fixed connectives)
with the user's question; in particular it contains the serialization and the
question. -/
theorem with_context_serializes_record (q : String) (r : DrugRecord) :
    (compose "drug_with_context" q (some r)).userContent
      = "Official Data: " ++ pyStrRecord r ++ "\n\nUser Question: " ++ q ∧
    containsStr (compose "drug_with_context" q (some r)).userContent
      (pyStrRecord r) ∧
    containsStr (compose "drug_with_context" q (some r)).userContent q := by
  have h : (compose "drug_with_context" q (some r)).userContent
      = "Official Data: " ++ pyStrRecord r ++ "\n\nUser Question: " ++ q := rfl
  refine ⟨h, ⟨"Official Data: ", "\n\nUser Question: " ++ q, ?_⟩,
    ⟨"Official Data: " ++ pyStrRecord r ++ "\n\nUser Question: ", "", ?_⟩⟩
  · rw [h, String.append_assoc, String.append_assoc]
  · rw [String.append_empty]
    exact h

/-- C7.  When the lookup returns `None`, the tab-2 route is `drug_no_context`
and composing the routed request yields the user content
"Explain the medicine: " followed by the drug name. -/
theorem no_context_user_content (drug_name : String)
    (http : String → Option FdaData)
    (h : get_fda_drug_info drug_name http = none) :
    (tab2_route drug_name http).mode = "drug_no_context" ∧
    (compose (tab2_route drug_name http).mode
       (tab2_route drug_name http).user_query
       (tab2_route drug_name http).context_data).userContent
      = "Explain the medicine: " ++ drug_name := by
  unfold tab2_route
  rw [h]
  exact ⟨rfl, rfl⟩

/-- Witness for C7 at the drug name "Dolo 650" with an unreachable service:
the composed user content is exactly "Explain the medicine: Dolo 650". -/
theorem no_context_user_content_witness :
    (compose (tab2_route "Dolo 650" httpDown).mode
       (tab2_route "Dolo 650" httpDown).user_query
       (tab2_route "Dolo 650" httpDown).context_data).userContent
      = "Explain the medicine: Dolo 650" :=
  ((no_context_user_content "Dolo 650" httpDown rfl).2).trans (by decide)

/-- C9.  The mode dispatch is total via a silent default branch: every mode
string other than exactly "drug_with_context" or "drug_no_context" falls
through to the symptom/triage template with the raw query as user content. -/
theorem mode_default_branch (mode q : String) (r : Option DrugRecord)
    (h1 : mode ≠ "drug_with_context") (h2 : mode ≠ "drug_no_context") :
    compose mode q r
      = { model_name := groq_model
          temperature := 0
          systemInstruction := triage_template
          userContent := q } := by
  unfold compose
  rw [if_neg h1, if_neg h2]

/-- Witness for C9 at the misspelled mode "drug_with_contex". -/
theorem mode_default_branch_witness :
    compose "drug_with_contex" "What is this?" none
      = { model_name := groq_model
          temperature := 0
          systemInstruction := triage_template
          userContent := "What is this?" } :=
  mode_default_branch "drug_with_contex" "What is this?" none
    (by decide) (by decide)

/-- Truncation to `n` characters yields a string of length at most `n`. -/
theorem pyTruncate_length_le (s : String) (n : Nat) :
    (pyTruncate s n).length ≤ n := by
  show (s.data.take n).length ≤ n
  exact List.length_take_le n s.data

/-- Reduction of `parse_fda_payload` on a payload without an `error` key and
with a nonempty result list: the outcome is decided by the three
`result.get(...)[0]` extractions of the first result. -/
theorem parse_fda_payload_first (d : FdaData) (r : FdaResult)
    (rs : List FdaResult) (he : d.hasError = false)
    (hr : d.results = some (r :: rs)) :
    parse_fda_payload d
      = match getFirst r.purpose, getFirst r.indications_and_usage,
              getFirst r.warnings with
        | some p, some ind, some w =>
          some { source := "Official US FDA Database"
                 purpose := p
                 indications := ind
                 warnings := pyTruncate w 1000 }
        | _, _, _ => none := by
  unfold parse_fda_payload
  rw [he, hr]
  rfl

/-- Reduction of the whole lookup under the same hypotheses. -/
theorem get_fda_drug_info_first (drug_name : String)
    (http : String → Option FdaData) (d : FdaData) (r : FdaResult)
    (rs : List FdaResult) (hd : http (fda_request_url drug_name) = some d)
    (he : d.hasError = false) (hr : d.results = some (r :: rs)) :
    get_fda_drug_info drug_name http
      = match getFirst r.purpose, getFirst r.indications_and_usage,
              getFirst r.warnings with
        | some p, some ind, some w =>
          some { source := "Official US FDA Database"
                 purpose := p
                 indications := ind
                 warnings := pyTruncate w 1000 }
        | _, _, _ => none := by
  unfold get_fda_drug_info
  rw [hd]
  exact parse_fda_payload_first d r rs he hr

/-- C4.  Every record a successful lookup returns has the fixed source label,
warnings truncated to at most 1000 characters, and the literal "Not Listed"
substituted for each field absent from the first result entry. -/
theorem lookup_success_shape (drug_name : String)
    (http : String → Option FdaData) (d : FdaData) (r : FdaResult)
    (rs : List FdaResult) (rec : DrugRecord)
    (hd : http (fda_request_url drug_name) = some d)
    (he : d.hasError = false) (hr : d.results = some (r :: rs))
    (hrec : get_fda_drug_info drug_name http = some rec) :
    rec.source = "Official US FDA Database" ∧
    rec.warnings.length ≤ 1000 ∧
    (r.purpose = none → rec.purpose = "Not Listed") ∧
    (r.indications_and_usage = none → rec.indications = "Not Listed") ∧
    (r.warnings = none → rec.warnings = "Not Listed") := by
  rw [get_fda_drug_info_first drug_name http d r rs hd he hr] at hrec
  rcases hp : getFirst r.purpose with _ | p
  · rw [hp] at hrec
    exact Option.noConfusion hrec
  rcases hi : getFirst r.indications_and_usage with _ | ind
  · rw [hp, hi] at hrec
    exact Option.noConfusion hrec
  rcases hw : getFirst r.warnings with _ | w
  · rw [hp, hi, hw] at hrec
    exact Option.noConfusion hrec
  rw [hp, hi, hw] at hrec
  have hrec2 : ({ source := "Official US FDA Database"
                  purpose := p
                  indications := ind
                  warnings := pyTruncate w 1000 } : DrugRecord) = rec :=
    Option.some_injective _ hrec
  subst hrec2
  refine ⟨rfl, pyTruncate_length_le w 1000, ?_, ?_, ?_⟩
  · intro h0
    rw [h0] at hp
    exact (Option.some_injective _ hp).symm
  · intro h0
    rw [h0] at hi
    exact (Option.some_injective _ hi).symm
  · intro h0
    rw [h0] at hw
    have hw2 : "Not Listed" = w := Option.some_injective _ hw
    rw [← hw2]
    show pyTruncate "Not Listed" 1000 = "Not Listed"
    decide

/-- Witness for C4 at the drug name "Advil" and a payload whose first result
lacks the purpose key: the built record carries the fixed source, a bounded
warnings text and the "Not Listed" substitute. -/
theorem lookup_success_shape_witness :
    sampleRecordNoPurpose.source = "Official US FDA Database" ∧
    sampleRecordNoPurpose.warnings.length ≤ 1000 ∧
    sampleRecordNoPurpose.purpose = "Not Listed" :=
  have h := lookup_success_shape "Advil" httpNoPurpose sampleDataNoPurpose
    sampleResultNoPurpose [] sampleRecordNoPurpose rfl rfl rfl rfl
  ⟨h.1, h.2.1, h.2.2.1 rfl⟩

/-- C10.  Only the first element of each field array of the first result is
used, and a field that is present but an empty array makes the whole lookup
return `None`; the "Not Listed" substitution applies only to absent keys. -/
theorem first_element_only (drug_name : String)
    (http : String → Option FdaData) (d : FdaData) (r : FdaResult)
    (rs : List FdaResult) (hd : http (fda_request_url drug_name) = some d)
    (he : d.hasError = false) (hr : d.results = some (r :: rs)) :
    ((r.purpose = some [] ∨ r.indications_and_usage = some [] ∨
        r.warnings = some []) →
      get_fda_drug_info drug_name http = none) ∧
    (∀ p ps ind inds w ws, r.purpose = some (p :: ps) →
      r.indications_and_usage = some (ind :: inds) →
      r.warnings = some (w :: ws) →
      get_fda_drug_info drug_name http
        = some { source := "Official US FDA Database"
                 purpose := p
                 indications := ind
                 warnings := pyTruncate w 1000 }) := by
  have hred := get_fda_drug_info_first drug_name http d r rs hd he hr
  constructor
  · intro h
    rw [hred]
    rcases h with h0 | h0 | h0
    · have g : getFirst r.purpose = none := by rw [h0]; rfl
      rw [g]
    · cases hgp : getFirst r.purpose with
      | none => rfl
      | some p =>
        have g : getFirst r.indications_and_usage = none := by rw [h0]; rfl
        rw [g]
    · cases hgp : getFirst r.purpose with
      | none => rfl
      | some p =>
        cases hgi : getFirst r.indications_and_usage with
        | none => rfl
        | some ind =>
          have g : getFirst r.warnings = none := by rw [h0]; rfl
          rw [g]
  · intro p ps ind inds w ws hp hi hw
    rw [hred]
    have g1 : getFirst r.purpose = some p := by rw [hp]; rfl
    have g2 : getFirst r.indications_and_usage = some ind := by rw [hi]; rfl
    have g3 : getFirst r.warnings = some w := by rw [hw]; rfl
    rw [g1, g2, g3]

/-- Witness for C10: a present-but-empty purpose array makes the lookup
return `None`, while on a fully populated first result the lookup returns the
record built from each array's first element. -/
theorem first_element_only_witness :
    get_fda_drug_info "Advil" httpEmptyPurpose = none ∧
    get_fda_drug_info "Advil" httpFound = some sampleRecordFull :=
  ⟨(first_element_only "Advil" httpEmptyPurpose sampleDataEmptyPurpose
      sampleResultEmptyPurpose [] rfl rfl rfl).1 (Or.inl rfl),
   (first_element_only "Advil" httpFound sampleDataFull sampleResultFull []
      rfl rfl rfl).2 "pain reliever" [] "temporarily relieves minor aches" []
      "do not exceed the recommended dose" [] rfl rfl rfl⟩

end HealthBot
